import Mathlib

/-!
Verification of the cc-statusline script-generation and caching engine.

This file gives a shallow embedding, in Lean 4, of the parts of the
TypeScript source that the specification's claims are about:

* `src/generators/bash-optimizer.ts` (the text optimizer's control flow,
  rollback and validation handling),
* `src/features/system.ts` (the emitted CPU colour-threshold logic),
* `src/features/usage.ts` (the emitted session-percentage arithmetic and
  the `progress_bar` shell function),
* `src/utils/cache-manager.ts` (the in-memory cache with capacity
  eviction),
* `src/generators/template-cache.ts` (template keys, common-config
  detection, the whole-script combination cache and the common-config
  template text),
* the display-section assembly loop of the bash generator
  (`generateDisplaySection`).

Pure functions of the source become Lean functions; JavaScript exceptions
become `Except`; the mutable caches become explicit state passed in and
out.  String templates are embedded as string literals (braces and
apostrophes written with `\x7b`, `\x7d`, `\x27` escapes).
-/

namespace CCStatusline

/-! ## Text optimizer control flow (`src/generators/bash-optimizer.ts`)

`optimizeBashCode` applies four rewrite passes in order inside a
`try`/`catch`; on any exception it returns the pre-optimization input, and
after the passes it computes `validateOptimizations` whose result is only
logged, never used to change the returned text.  The individual passes are
total string rewrites in the source; to reason about "any pass throwing"
we embed a pass as `String → Except E String`. -/

/-- `OptimizationOptions` from bash-optimizer.ts (all four flags default
to `true` in `optimizeBashCode`). -/
structure OptimizationOptions where
  compactVariables : Bool
  useBuiltins : Bool
  reduceSubshells : Bool
  combinePipes : Bool
deriving DecidableEq, Repr

/-- The `defaultOptions` object built at the top of `optimizeBashCode`:
every pass enabled. -/
def defaultOptions : OptimizationOptions :=
  ⟨true, true, true, true⟩

/-- The four rewrite passes of bash-optimizer.ts
(`applyCompactVariables`, `applyBuiltinReplacements`, `reduceSubshells`,
`combinePipeOperations`), embedded as possibly-throwing string rewrites. -/
structure RewritePasses (E : Type) where
  applyCompactVariables : String → Except E String
  applyBuiltinReplacements : String → Except E String
  reduceSubshells : String → Except E String
  combinePipeOperations : String → Except E String

/-- The `try` block of `optimizeBashCode`: the four steps applied in
order, each guarded by its option flag; the first exception aborts. -/
def runRewritePasses (P : RewritePasses E) (opts : OptimizationOptions)
    (code : String) : Except E String := do
  let c1 ← if opts.compactVariables then P.applyCompactVariables code else pure code
  let c2 ← if opts.useBuiltins then P.applyBuiltinReplacements c1 else pure c1
  let c3 ← if opts.reduceSubshells then P.reduceSubshells c2 else pure c2
  let c4 ← if opts.combinePipes then P.combinePipeOperations c3 else pure c3
  pure c4

/-- Severity levels of `validateOptimizations`. -/
inductive Severity where
  | low
  | medium
  | high
deriving DecidableEq, Repr

/-- Result shape of `validateOptimizations(original, optimized)`. -/
structure ValidationResult where
  isValid : Bool
  issues : List String
  severity : Severity

/-- `optimizeBashCode(bashCode, options)`: run the passes; on success,
compute the final validation (logged only — its result does not influence
the returned string) and return the rewritten text; on an exception,
return the original input unchanged. -/
def optimizeBashCode (P : RewritePasses E)
    (validateOptimizations : String → String → ValidationResult)
    (opts : OptimizationOptions) (bashCode : String) : String :=
  let original := bashCode
  match runRewritePasses P opts bashCode with
  | .ok optimized =>
      -- `finalValidation` is only passed to console.warn in the source.
      let _finalValidation := validateOptimizations original optimized
      optimized
  | .error _ => original

/-! ## Emitted CPU colour thresholds (`src/features/system.ts`)

`generateSystemBashCode` reads `config.thresholds?.cpuThreshold || 75` and
emits a `cpu_clr` shell function whose guards are
`(( cpu_percent > Math.round(cpuThreshold * 1.1) ))` (red) and
`(( cpu_percent > cpuThreshold ))` (yellow). -/

/-- The `thresholds` sub-object of `SystemFeature` (system.ts).  The
`loadThreshold` field is a floating-point number in the source; it plays
no role in the CPU colour logic modelled here. -/
structure SystemThresholds where
  cpuThreshold : Nat
  memoryThreshold : Nat
deriving DecidableEq, Repr

/-- `config.thresholds?.cpuThreshold || 75` — JavaScript `||` falls back
to the default when the configured value is absent or `0` (falsy). -/
def cpuThresholdUsed (thresholds : Option SystemThresholds) : Nat :=
  match thresholds with
  | some t => if t.cpuThreshold = 0 then 75 else t.cpuThreshold
  | none => 75

/-- `Math.round(t * 1.1)` for the integer thresholds the configuration
admits (10..95): equal to the rational rounding `(11*t + 5) / 10`, since
the double-precision product `t * 1.1` differs from `11*t/10` by less
than `10^-12` there and `Math.round` rounds halves up. -/
def jsRoundElevenTenths (t : Nat) : Nat :=
  (11 * t + 5) / 10

/-- The two numeric literals interpolated into the emitted `cpu_clr`
function: the yellow guard constant and the red guard constant. -/
def emittedCpuThresholds (thresholds : Option SystemThresholds) : Nat × Nat :=
  let t := cpuThresholdUsed thresholds
  (t, jsRoundElevenTenths t)

/-- The three colour tiers of the emitted `cpu_clr` function
(`1;31` red, `1;33` yellow, `1;32` green). -/
inductive CpuTier where
  | red
  | yellow
  | green
deriving DecidableEq, Repr

/-- Semantics of the emitted `cpu_clr` body:
`if (( cpu_percent > crit )) red; elif (( cpu_percent > warn )) yellow;
else green`. -/
def emittedCpuColorTier (warn crit cpuPercent : Nat) : CpuTier :=
  if cpuPercent > crit then .red
  else if cpuPercent > warn then .yellow
  else .green

/-! ## Emitted session arithmetic and progress bar (`src/features/usage.ts`)

`generateUsageBashCode` emits (lines 83–93):
`total=$(( end_sec - start_sec )); (( total<1 )) && total=1;`
`elapsed=$(( now_sec - start_sec )); (( elapsed<0 ))&&elapsed=0;`
`(( elapsed>total ))&&elapsed=$total; session_pct=$(( elapsed*100/total ))`.
`generateUsageUtilities` emits `progress_bar` (lines 117–123). -/

/-- The emitted session-percentage computation on epoch seconds
(bash integer arithmetic; all operands are non-negative after the clamps,
so truncating division coincides with Euclidean division). -/
def sessionPct (startSec endSec nowSec : Int) : Int :=
  let total0 := endSec - startSec
  let total := if total0 < 1 then 1 else total0
  let elapsed0 := nowSec - startSec
  let elapsed1 := if elapsed0 < 0 then 0 else elapsed0
  let elapsed := if elapsed1 > total then total else elapsed1
  elapsed * 100 / total

/-- The emitted `progress_bar` function: the argument has already matched
`^[0-9]+$` (hence a natural number — the `((pct<0))` clamp cannot fire),
is clamped to at most 100, and the output is `filled = pct*width/100`
copies of `=` followed by `width - filled` copies of `-`. -/
def progressBar (pct width : Nat) : String :=
  let p := if pct > 100 then 100 else pct
  let filled := p * width / 100
  let emptyCells := width - filled
  String.mk (List.replicate filled '=') ++ String.mk (List.replicate emptyCells '-')

/-! ## Concrete pass pipelines and validators used by witnesses -/

/-- A pass structure whose first pass throws, used to witness C3. -/
def throwingPasses : RewritePasses Unit :=
  ⟨fun _ => .error (), fun s => .ok s, fun s => .ok s, fun s => .ok s⟩

/-- A validator that always reports success, used in witnesses. -/
def trivialValidator : String → String → ValidationResult :=
  fun _ _ => ⟨true, [], .low⟩

/-- A pass structure that rewrites the text (first pass appends a marker),
used to witness C4: the rewritten text is returned even though the
validator reports a high-severity problem. -/
def rewritingPasses : RewritePasses Unit :=
  ⟨fun s => .ok (s ++ "X"), fun s => .ok s, fun s => .ok s, fun s => .ok s⟩

/-- A validator that always reports a high-severity issue, used to
witness C4. -/
def alwaysFailingValidator : String → String → ValidationResult :=
  fun _ _ => ⟨false, ["Unmatched double quotes detected"], .high⟩

/-! ## In-place feature sorting (`src/generators/template-cache.ts`)

`generateTemplateKey` evaluates `config.features.sort()` and
`isCommonConfig` evaluates `features.sort()`; JavaScript
`Array.prototype.sort` sorts the array **in place** (stably, by UTF-16
code-unit order, which agrees with Lean's `String` order on the ASCII
feature tags).  `generateBashStatusline` calls
`generateOptimizedBashStatusline`, which calls `generateTemplateKey` and
then (on a combination-cache miss) `isCommonConfig`, so the caller's
`features` array has been sorted in place by the time the entry point
returns. -/

/-- JavaScript `features.sort()` on feature-tag strings: a stable sort by
the string order. -/
def jsSortStrings (fs : List String) : List String :=
  fs.mergeSort

/-- The contents of `config.features` after `generateTemplateKey` has run
(`config.features.sort()` replaces the array's contents). -/
def featuresAfterGenerateTemplateKey (fs : List String) : List String :=
  jsSortStrings fs

/-- The contents of `config.features` after `isCommonConfig` has run on
the array already sorted by `generateTemplateKey`. -/
def featuresAfterGenerate (fs : List String) : List String :=
  jsSortStrings (featuresAfterGenerateTemplateKey fs)

/-! ## Memory cache eviction (`src/utils/cache-manager.ts`)

The in-process memory cache is a JavaScript `Map` from key strings to
cache entries; we embed it as an association list in insertion order.
`setInMemory` calls `cleanupMemoryCache` when the cache is at capacity;
the cleanup collects all expired keys, and only when there were none (and
the cache is at capacity) marks the `Math.floor(maxMemoryEntries * 0.2)`
entries with the lowest hit counts (stable sort by `a.hits - b.hits`,
then `slice`) for deletion. -/

/-- `CacheEntry` from cache-manager.ts (values are the cached strings in
every use by the generator). -/
structure CacheEntry where
  typ : String
  context : String
  timestamp : Nat
  value : String
  expiry : Nat
  hits : Nat
deriving DecidableEq, Repr

/-- `CacheConfig` from cache-manager.ts. -/
structure CacheConfig where
  memoryTTL : Nat
  fileTTL : Nat
  maxMemoryEntries : Nat
  templateFragmentTTL : Nat
  templateCombinationTTL : Nat
deriving DecidableEq, Repr

/-- The defaults installed by the `CacheManager` constructor. -/
def defaultCacheConfig : CacheConfig :=
  ⟨5000, 30, 100, 300000, 60000⟩

/-- The memory cache: key/entry pairs in `Map` insertion order. -/
abbrev MemCache := List (String × CacheEntry)

/-- The expired keys collected by the first loop of
`cleanupMemoryCache` (`now > entry.expiry`). -/
def expiredKeys (now : Nat) (cache : MemCache) : List String :=
  (cache.filter fun kv => decide (now > kv.2.expiry)).map Prod.fst

/-- The keys of the lowest-hit-count fifth of the entries: a stable sort
by ascending hit count (the JavaScript comparator `a.hits - b.hits`),
then `slice(0, Math.floor(maxMemoryEntries * 0.2))`; on naturals
`Math.floor(maxMemoryEntries * 0.2) = maxMemoryEntries / 5`. -/
def lowHitKeys (maxMemoryEntries : Nat) (cache : MemCache) : List String :=
  ((cache.mergeSort fun a b => Nat.ble a.2.hits b.2.hits).take
    (maxMemoryEntries / 5)).map Prod.fst

/-- The final `toDelete` list of `cleanupMemoryCache`: the expired keys,
extended by the lowest-hit keys only when no expired key was found and
the cache is still at capacity. -/
def cleanupToDelete (now maxMemoryEntries : Nat) (cache : MemCache) : List String :=
  if (expiredKeys now cache).length = 0 ∧ cache.length ≥ maxMemoryEntries then
    expiredKeys now cache ++ lowHitKeys maxMemoryEntries cache
  else
    expiredKeys now cache

/-- `cleanupMemoryCache`: delete every key marked in `toDelete`. -/
def cleanupMemoryCache (now maxMemoryEntries : Nat) (cache : MemCache) : MemCache :=
  cache.filter fun kv => !(decide (kv.1 ∈ cleanupToDelete now maxMemoryEntries cache))

/-- TTL selection in `setInMemory`: template fragments and template
combinations get their dedicated TTLs, everything else the memory TTL. -/
def ttlForType (cfg : CacheConfig) (typ : String) : Nat :=
  if typ = "template_fragment" then cfg.templateFragmentTTL
  else if typ = "template_combination" then cfg.templateCombinationTTL
  else cfg.memoryTTL

/-- `setInMemory(key, value, type, context)`: cleanup when at capacity,
then insert the new entry (`Map.set`: replace in place if the key
exists, otherwise append). -/
def setInMemory (now : Nat) (cfg : CacheConfig)
    (key value typ context : String) (cache : MemCache) : MemCache :=
  let cache1 :=
    if cache.length ≥ cfg.maxMemoryEntries then
      cleanupMemoryCache now cfg.maxMemoryEntries cache
    else cache
  let entry : CacheEntry := ⟨typ, context, now, value, now + ttlForType cfg typ, 0⟩
  if cache1.any fun kv => kv.1 == key then
    cache1.map fun kv => if kv.1 = key then (key, entry) else kv
  else
    cache1 ++ [(key, entry)]

/-! ## The configuration object (`src/cli/prompts.ts`) -/

/-- The optional `systemMonitoring` sub-object of `StatuslineConfig`. -/
structure SystemMonitoring where
  refreshRate : Nat
  cpuThreshold : Nat
  memoryThreshold : Nat
deriving DecidableEq, Repr

/-- `StatuslineConfig` from prompts.ts — the generator's sole input. -/
structure StatuslineConfig where
  features : List String
  runtime : String
  colors : Bool
  theme : String
  ccusageIntegration : Bool
  logging : Bool
  customEmojis : Bool
  systemMonitoring : Option SystemMonitoring
deriving DecidableEq, Repr

/-- JavaScript template interpolation of a boolean (`${config.colors}`). -/
def jsBoolString (b : Bool) : String :=
  if b then "true" else "false"

/-! ## Substring search helper (used to state display-block presence) -/

/-- `needle` occurs at the start of `hay`. -/
def charListHasPrefixAt : List Char → List Char → Bool
  | [], _ => true
  | _ :: _, [] => false
  | a :: as, b :: bs => a == b && charListHasPrefixAt as bs

/-- `needle` occurs somewhere in `hay`. -/
def charListHasSeq (needle : List Char) : List Char → Bool
  | [] => charListHasPrefixAt needle []
  | c :: t => charListHasPrefixAt needle (c :: t) || charListHasSeq needle t

/-- Decidable substring test on strings. -/
def containsSeq (needle hay : String) : Bool :=
  charListHasSeq needle.data hay.data

/-! ## Usage display fragment (`src/features/usage.ts`) -/

/-- `UsageFeature` from usage.ts. -/
structure UsageFeature where
  enabled : Bool
  showCost : Bool
  showTokens : Bool
  showBurnRate : Bool
  showSession : Bool
  showProgressBar : Bool
deriving DecidableEq, Repr

/-- `generateUsageDisplayCode(config, colors, emojis)` (usage.ts lines
126–168): the combined usage display block — a session-countdown part,
a cost part and a tokens part, each gated by its flag.  The `colors`
parameter is accepted but unused by the body, as in the source. -/
def generateUsageDisplayCode (config : UsageFeature) (_colors : Bool) (emojis : Bool) : String :=
  if !config.enabled then "" else
  let sessionPart :=
    if config.showSession then
      "\n# session time\nif [ -n \"$session_txt\" ]; then\n  printf \x27  " ++
        (if emojis then "⌛" else "session:") ++
        " %s%s%s\x27 \"$(session_color)\" \"$session_txt\" \"$(rst)\"" ++
        (if config.showProgressBar then
          "\n  printf \x27  %s[%s]%s\x27 \"$(session_color)\" \"$session_bar\" \"$(rst)\""
        else "") ++
        "\nfi"
    else ""
  let costPart :=
    if config.showCost then
      "\n# cost\nif [ -n \"$cost_usd\" ] && [[ \"$cost_usd\" =~ ^[0-9.]+$ ]]; then\n  if [ -n \"$cost_per_hour\" ] && [[ \"$cost_per_hour\" =~ ^[0-9.]+$ ]]; then\n    printf \x27  " ++
        (if emojis then "💵" else "$") ++
        " %s$%.2f ($%.2f/h)%s\x27 \"$(cost_color)\" \"$cost_usd\" \"$cost_per_hour\" \"$(rst)\"\n  else\n    printf \x27  " ++
        (if emojis then "💵" else "$") ++
        " %s$%.2f%s\x27 \"$(cost_color)\" \"$cost_usd\" \"$(rst)\"\n  fi\nfi"
    else ""
  let tokensPart :=
    if config.showTokens then
      "\n# tokens\nif [ -n \"$tot_tokens\" ] && [[ \"$tot_tokens\" =~ ^[0-9]+$ ]]; then\n  if [ -n \"$tpm\" ] && [[ \"$tpm\" =~ ^[0-9.]+$ ]] && " ++
        (if config.showBurnRate then "true" else "false") ++
        "; then\n    printf \x27  " ++
        (if emojis then "📊" else "tok:") ++
        " %s%s tok (%.0f tpm)%s\x27 \"$(usage_color)\" \"$tot_tokens\" \"$tpm\" \"$(rst)\"\n  else\n    printf \x27  " ++
        (if emojis then "📊" else "tok:") ++
        " %s%s tok%s\x27 \"$(usage_color)\" \"$tot_tokens\" \"$(rst)\"\n  fi\nfi"
    else ""
  sessionPart ++ costPart ++ tokensPart

/-! ## Display-section assembly loop of the bash generator

`generateDisplaySection` (the per-feature fallback generator) walks
`featurePriority` and, for each selected feature, appends one display
block according to the `switch`: directory, model and git blocks are
appended directly; the system block is appended only for the first
selected tag among cpu/memory/load; the usage block is appended only for
`usage`, or for `session` when `usage` is not selected — the `tokens`
and `burnrate` cases fall through the guard without appending. -/

/-- The block kinds the display loop can append. -/
inductive DisplayBlock where
  | directoryBlock
  | modelBlock
  | gitBlock
  | systemBlock
  | usageBlock
deriving DecidableEq, Repr

/-- The fixed visual priority order of the display loop. -/
def featurePriority : List String :=
  ["directory", "git", "model", "cpu", "memory", "load",
   "usage", "session", "tokens", "burnrate"]

/-- The `switch (feature)` body of `generateDisplaySection`, as the list
of blocks it appends for one selected feature. -/
def displayDispatch (features : List String) (f : String) : List DisplayBlock :=
  if f == "directory" then [.directoryBlock]
  else if f == "model" then [.modelBlock]
  else if f == "git" then [.gitBlock]
  else if f == "cpu" || f == "memory" || f == "load" then
    (if f == "cpu" || (!(features.contains "cpu") && f == "memory") ||
        (!(features.contains "cpu") && !(features.contains "memory") && f == "load")
      then [.systemBlock] else [])
  else if f == "usage" || f == "session" || f == "tokens" || f == "burnrate" then
    (if f == "usage" || (!(features.contains "usage") && f == "session")
      then [.usageBlock] else [])
  else []

/-- The display loop: for each feature in priority order that is
selected, append its dispatch result. -/
def displayAppends (features : List String) : List DisplayBlock :=
  featurePriority.foldl
    (fun acc f => if features.contains f then acc ++ displayDispatch features f else acc) []

/-- How many times the display loop appends the usage display block. -/
def usageDisplayAppendCount (features : List String) : Nat :=
  (displayAppends features).count .usageBlock

/-- The `usageConfig` object built by `generateBashStatusline` before
dispatching to the feature generators. -/
def usageConfigOf (cfg : StatuslineConfig) : UsageFeature :=
  { enabled := (cfg.features.contains "usage" || cfg.features.contains "session" ||
      cfg.features.contains "tokens" || cfg.features.contains "burnrate") &&
      cfg.ccusageIntegration
    showCost := cfg.features.contains "usage"
    showTokens := cfg.features.contains "tokens"
    showBurnRate := cfg.features.contains "burnrate"
    showSession := cfg.features.contains "session"
    showProgressBar := (cfg.theme != "minimal") && cfg.features.contains "session" }

end CCStatusline

namespace CCStatusline.TemplateCache

/-! ## The template cache (`src/generators/template-cache.ts`)

The pre-compiled fragments, the common-configuration shapes, the
whole-script combination cache and the common-config template assembly.
The `fragmentCache` memoization of `getColorFragment` and
`getUtilitiesFragment` is modelled away: it caches constant literals, so
it never changes a returned fragment.  The md5 hash behind
`generateTemplateKey` is kept abstract as a function parameter `hash`. -/

/-- `TEMPLATE_FRAGMENTS.colors.enabled`. -/
def colorsEnabledFragment : String :=
  "\n# ---- color helpers (modern terminal-aware, respect NO_COLOR) ----\nuse_color=1\n\n# Honor explicit environment variables\n[ -n \"$NO_COLOR\" ] && use_color=0\n[ -n \"$FORCE_COLOR\" ] && use_color=1\n\n# Detect modern terminals (more permissive than TTY-only)\nif [ \"$use_color\" -eq 1 ] && [ -z \"$FORCE_COLOR\" ]; then\n  # Check for explicit color support indicators\n  case \"$TERM\" in\n    *color*|*-256color|xterm*|screen*|tmux*) \n      use_color=1 ;;\n    dumb|unknown) \n      use_color=0 ;;\n    *) \n      # Default to colors for modern environments (WSL, containers, etc.)\n      # Only disable if we\x27re definitely not in a capable terminal\n      [ -t 1 ] || use_color=1  # Enable colors even for non-TTY if not explicitly disabled\n      ;;\n  esac\nfi\n\nC() \x7b if [ \"$use_color\" -eq 1 ]; then printf \x27\\033[%sm\x27 \"$1\"; fi; \x7d\nRST() \x7b if [ \"$use_color\" -eq 1 ]; then printf \x27\\033[0m\x27; fi; \x7d"

/-- `TEMPLATE_FRAGMENTS.colors.disabled`. -/
def colorsDisabledFragment : String :=
  "\n# ---- color helpers (disabled) ----\nuse_color=0\nC() \x7b :; \x7d\nRST() \x7b :; \x7d"

/-- `TEMPLATE_FRAGMENTS.utilities.timeHelpers`. -/
def timeHelpersFragment : String :=
  "\n# ---- time helpers ----\nto_epoch() \x7b\n  ts=\"$1\"\n  if command -v gdate >/dev/null 2>&1; then gdate -d \"$ts\" +%s 2>/dev/null && return; fi\n  date -u -j -f \"%Y-%m-%dT%H:%M:%S%z\" \"$\x7bts/Z/+0000\x7d\" +%s 2>/dev/null && return\n  python3 - \"$ts\" <<\x27PY\x27 2>/dev/null\nimport sys, datetime\ns=sys.argv[1].replace(\x27Z\x27,\x27+00:00\x27)\nprint(int(datetime.datetime.fromisoformat(s).timestamp()))\nPY\n\x7d\n\nfmt_time_hm() \x7b\n  epoch=\"$1\"\n  if date -r 0 +%s >/dev/null 2>&1; then date -r \"$epoch\" +\"%H:%M\"; else date -d \"@$epoch\" +\"%H:%M\"; fi\n\x7d\n\nprogress_bar() \x7b\n  pct=\"$\x7b1:-0\x7d\"; width=\"$\x7b2:-10\x7d\"\n  [[ \"$pct\" =~ ^[0-9]+$ ]] || pct=0; ((pct<0))&&pct=0; ((pct>100))&&pct=100\n  filled=$(( pct * width / 100 )); empty=$(( width - filled ))\n  printf \x27%*s\x27 \"$filled\" \x27\x27 | tr \x27 \x27 \x27=\x27\n  printf \x27%*s\x27 \"$empty\" \x27\x27 | tr \x27 \x27 \x27-\x27\n\x7d"

/-- `TEMPLATE_FRAGMENTS.utilities.jsonParsing`. -/
def jsonParsingFragment : String :=
  "\n# ---- optimized json parsing ----\nextract_json() \x7b\n  field=\"$1\"\n  fallback=\"$2\"\n  if command -v jq >/dev/null 2>&1; then\n    echo \"$input\" | jq -r \".$field // \\\"$fallback\\\"\" 2>/dev/null || echo \"$fallback\"\n  else\n    echo \"$fallback\"\n  fi\n\x7d"

/-- `TEMPLATE_FRAGMENTS.utilities.gitUtilities`. -/
def gitUtilitiesFragment : String :=
  "\n# git utilities\nnum_or_zero() \x7b v=\"$1\"; [[ \"$v\" =~ ^[0-9]+$ ]] && echo \"$v\" || echo 0; \x7d"

/-- `getColorFragment(enabled)` (the fragment-cache memoization returns
the same constant either way). -/
def getColorFragment (enabled : Bool) : String :=
  if enabled then colorsEnabledFragment else colorsDisabledFragment

/-- `getUtilitiesFragment(hasUsage, hasGit)`: time helpers when usage is
selected, git utilities when git is selected, always the JSON parsing
fragment; joined with single newlines. -/
def getUtilitiesFragment (hasUsage hasGit : Bool) : String :=
  String.intercalate "\n"
    ((if hasUsage then [timeHelpersFragment] else []) ++
     (if hasGit then [gitUtilitiesFragment] else []) ++
     [jsonParsingFragment])

/-- `COMMON_CONFIGS`: the four common feature-set shapes. -/
def COMMON_CONFIGS : List (List String) :=
  [["directory", "model"],
   ["directory", "git", "model"],
   ["directory", "git", "model", "usage"],
   ["directory", "git", "model", "usage", "session"]]

/-- `isCommonConfig(features)`: sort the features (in place — see C10)
and return the first common shape with the same sorted tag list. -/
def isCommonConfig (features : List String) : Option (List String) :=
  COMMON_CONFIGS.find? fun c => jsSortStrings features == jsSortStrings c

/-- The fixed text of `generateScriptHeader` before the creation
timestamp. -/
def scriptHeaderPrefix : String :=
  "#!/bin/bash\n# Generated by cc-statusline (https://www.npmjs.com/package/@chongdashu/cc-statusline)\n# Custom Claude Code statusline - Created: "

/-- The text of `generateScriptHeader` after the creation timestamp:
theme, colors flag and the comma-joined feature list. -/
def scriptHeaderSuffix (cfg : StatuslineConfig) : String :=
  "\n# Theme: " ++ cfg.theme ++ " | Colors: " ++ jsBoolString cfg.colors ++
    " | Features: " ++ String.intercalate ", " cfg.features

/-- `generateScriptHeader(config)` with the `new Date().toISOString()`
value passed in explicitly as `timestamp`. -/
def generateScriptHeader (cfg : StatuslineConfig) (timestamp : String) : String :=
  scriptHeaderPrefix ++ timestamp ++ scriptHeaderSuffix cfg

/-- `generateLoggingCode()`. -/
def generateLoggingCode : String :=
  "\nLOG_FILE=\"$\x7bHOME\x7d/.claude/statusline.log\"\nTIMESTAMP=$(date \x27+%Y-%m-%d %H:%M:%S\x27)\n\n# ---- logging ----\n\x7b\n  echo \"[$TIMESTAMP] Status line triggered with input:\"\n  (echo \"$input\" | jq . 2>/dev/null) || echo \"$input\"\n  echo \"---\"\n\x7d >> \"$LOG_FILE\" 2>/dev/null\n"

/-- `generateBasicColors()` (template-cache.ts version). -/
def generateBasicColors : String :=
  "\n# ---- basic colors ----\ndir_color() \x7b if [ \"$use_color\" -eq 1 ]; then printf \x27\\033[1;36m\x27; fi; \x7d    # cyan\nmodel_color() \x7b if [ \"$use_color\" -eq 1 ]; then printf \x27\\033[1;35m\x27; fi; \x7d  # magenta  \nversion_color() \x7b if [ \"$use_color\" -eq 1 ]; then printf \x27\\033[1;33m\x27; fi; \x7d # yellow\nrst() \x7b if [ \"$use_color\" -eq 1 ]; then printf \x27\\033[0m\x27; fi; \x7d\n"

/-- `generateBasicDataExtraction(hasDirectory, hasModel)`
(template-cache.ts version): one combined jq query with per-field
fallbacks, plus a home-directory abbreviation for the directory. -/
def generateBasicDataExtraction (hasDirectory hasModel : Bool) : String :=
  if !hasDirectory && !hasModel then "" else
  let jqFields :=
    (if hasDirectory then ["current_dir: (.workspace.current_dir // .cwd // \"unknown\")"] else []) ++
    (if hasModel then
      ["model_name: (.model.display_name // \"Claude\")",
       "model_version: (.model.version // \"\")"] else [])
  let fallbackVars :=
    (if hasDirectory then ["current_dir=\"unknown\""] else []) ++
    (if hasModel then ["model_name=\"Claude\"; model_version=\"\""] else [])
  let jqQuery := "\x7b" ++ String.intercalate ", " jqFields ++ "\x7d"
  "\n# ---- basics ----\nif command -v jq >/dev/null 2>&1; then\n  eval \"$(echo \"$input\" | jq -r \x27" ++
    jqQuery ++ " | to_entries | .[] | \"\\(.key)=\\(.value | @sh)\"\x27 2>/dev/null)\"" ++
    (if hasDirectory then "\n  current_dir=$(echo \"$current_dir\" | sed \"s|^$HOME|~|g\")" else "") ++
    "\nelse\n  " ++ String.intercalate "; " fallbackVars ++ "\nfi\n"

/-- `generateGitCode(_config)` (the simplified common-config git code). -/
def generateGitCode : String :=
  "\n# ---- git ----\ngit_branch=\"\"\nif git rev-parse --git-dir >/dev/null 2>&1; then\n  git_branch=$(git symbolic-ref --short HEAD 2>/dev/null || git describe --always 2>/dev/null)\nfi"

/-- `generateUsageCode(_config)` (the simplified common-config usage
code — note: no session-time computation, no cache, and no
`ccusageIntegration` gate). -/
def generateUsageCode : String :=
  "\n# ---- ccusage integration ----\nsession_txt=\"\"; session_pct=0; cost_usd=\"\"; cost_per_hour=\"\"; tpm=\"\"; tot_tokens=\"\"\n\nif command -v jq >/dev/null 2>&1; then\n  blocks_output=$(ccusage blocks --json 2>/dev/null || timeout 3 npx ccusage@latest blocks --json 2>/dev/null)\n  if [ -n \"$blocks_output\" ]; then\n    eval \"$(echo \"$blocks_output\" | jq -r \x27.blocks[] | select(.isActive == true) | \x7bcost_usd: (.costUSD // \"\"), cost_per_hour: (.burnRate.costPerHour // \"\"), tot_tokens: (.totalTokens // \"\"), tpm: (.burnRate.tokensPerMinute // \"\")\x7d | to_entries | .[] | \"\\(.key)=\\(.value | @sh)\"\x27 2>/dev/null)\" 2>/dev/null\n  fi\nfi"

/-- `generateLoggingOutput()`. -/
def generateLoggingOutput : String :=
  "\n# ---- log extracted data ----\n\x7b\n  echo \"[$TIMESTAMP] Extracted: dir=$\x7bcurrent_dir:-\x7d, model=$\x7bmodel_name:-\x7d, version=$\x7bmodel_version:-\x7d, git=$\x7bgit_branch:-\x7d, cost=$\x7bcost_usd:-\x7d, cost_ph=$\x7bcost_per_hour:-\x7d, tokens=$\x7btot_tokens:-\x7d, tpm=$\x7btpm:-\x7d, session_pct=$\x7bsession_pct:-\x7d\"\n\x7d >> \"$LOG_FILE\" 2>/dev/null\n"

/-- `generateDisplaySection(config)` (template-cache.ts version): a
directory block, a model block, a git block and a cost block — and
nothing else; in particular no session-countdown display. -/
def generateDisplaySection (cfg : StatuslineConfig) : String :=
  let emojis := cfg.colors && !cfg.customEmojis
  let dirPart :=
    if cfg.features.contains "directory" then
      "\nprintf \x27" ++ (if emojis then "📁" else "dir:") ++ " %s%s%s\x27 \"" ++
        (if cfg.colors then "$(dir_color)" else "") ++ "\" \"$current_dir\" \"" ++
        (if cfg.colors then "$(rst)" else "") ++ "\""
    else ""
  let modelPart :=
    if cfg.features.contains "model" then
      "\nprintf \x27  " ++ (if emojis then "🤖" else "model:") ++ " %s%s%s\x27 \"" ++
        (if cfg.colors then "$(model_color)" else "") ++ "\" \"$model_name\" \"" ++
        (if cfg.colors then "$(rst)" else "") ++ "\""
    else ""
  let gitPart :=
    if cfg.features.contains "git" then
      "\nif [ -n \"$git_branch\" ]; then\n  printf \x27  " ++
        (if emojis then "🌿" else "git:") ++ " %s%s%s\x27 \"" ++
        (if cfg.colors then "$(git_color)" else "") ++ "\" \"$git_branch\" \"" ++
        (if cfg.colors then "$(rst)" else "") ++ "\"\nfi"
    else ""
  let usagePart :=
    if cfg.features.contains "usage" then
      "\nif [ -n \"$cost_usd\" ] && [[ \"$cost_usd\" =~ ^[0-9.]+$ ]]; then\n  if [ -n \"$cost_per_hour\" ] && [[ \"$cost_per_hour\" =~ ^[0-9.]+$ ]]; then\n    printf \x27  " ++
        (if emojis then "💵" else "$") ++
        " %s$%.2f ($%.2f/h)%s\x27 \"$(cost_color)\" \"$cost_usd\" \"$cost_per_hour\" \"$(rst)\"\n  else\n    printf \x27  " ++
        (if emojis then "💵" else "$") ++
        " %s$%.2f%s\x27 \"$(cost_color)\" \"$cost_usd\" \"$(rst)\"\n  fi\nfi"
    else ""
  "\n# ---- render statusline ----" ++ dirPart ++ modelPart ++ gitPart ++ usagePart

/-- The `switch (commonConfig.join(','))` of
`generateCommonConfigTemplate`: the data-collection parts pushed for
each common shape. -/
def commonShapeParts (commonConfig : List String) : List String :=
  let j := String.intercalate "," commonConfig
  if j = "directory,model" then
    [generateBasicDataExtraction true true]
  else if j = "directory,git,model" then
    [generateBasicDataExtraction true true, generateGitCode]
  else if j = "directory,git,model,usage" then
    [generateBasicDataExtraction true true, generateGitCode, generateUsageCode]
  else if j = "directory,git,model,usage,session" then
    [generateBasicDataExtraction true true, generateGitCode, generateUsageCode]
  else []

/-- Every part of `generateCommonConfigTemplate` after the header. -/
def commonConfigRestParts (cfg : StatuslineConfig) (commonConfig : List String) : List String :=
  let hasGit := cfg.features.contains "git"
  let hasUsage := cfg.features.contains "usage" || cfg.features.contains "session" ||
    cfg.features.contains "tokens" || cfg.features.contains "burnrate"
  [(if cfg.logging then generateLoggingCode else ""),
   "input=$(cat)",
   getColorFragment cfg.colors,
   (if cfg.colors then generateBasicColors else ""),
   getUtilitiesFragment hasUsage hasGit] ++
  commonShapeParts commonConfig ++
  [(if cfg.logging then generateLoggingOutput else ""),
   generateDisplaySection cfg]

/-- `generateCommonConfigTemplate(config, commonConfig)`: the header
followed by the remaining parts; empty contributions are dropped and the
rest joined with single newlines, with a trailing newline. -/
def generateCommonConfigTemplate (cfg : StatuslineConfig) (commonConfig : List String)
    (timestamp : String) : String :=
  String.intercalate "\n"
    ((generateScriptHeader cfg timestamp :: commonConfigRestParts cfg commonConfig).filter
      fun p => p != "") ++ "\n"

/-- The `JSON.stringify` serialisation of the `keyComponents` object of
`generateTemplateKey` (sorted features plus every style flag). -/
def serializeTemplateKeyComponents (cfg : StatuslineConfig) : String :=
  "\x7b\"features\":[" ++
    String.intercalate "," ((jsSortStrings cfg.features).map fun f => "\"" ++ f ++ "\"") ++
    "],\"colors\":" ++ jsBoolString cfg.colors ++
    ",\"theme\":\"" ++ cfg.theme ++
    "\",\"ccusage\":" ++ jsBoolString cfg.ccusageIntegration ++
    ",\"emojis\":" ++ jsBoolString cfg.customEmojis ++
    ",\"logging\":" ++ jsBoolString cfg.logging ++ "\x7d"

/-- `generateTemplateKey(config)`: a deterministic hash (md5, kept
abstract as `hash`) of the serialised key components. -/
def generateTemplateKey (hash : String → String) (cfg : StatuslineConfig) : String :=
  hash (serializeTemplateKeyComponents cfg)

/-- The whole-script combination cache (a JavaScript `Map` in insertion
order). -/
abbrev CombinationCache := List (String × String)

/-- `getCachedCombination(templateKey)`: `this.combinationCache.get(templateKey) || null` —
a stored empty string is falsy and therefore reported as a miss. -/
def getCachedCombination (templateKey : String) (cc : CombinationCache) : Option String :=
  match cc.lookup templateKey with
  | some t => if t = "" then none else some t
  | none => none

/-- `setCachedCombination(templateKey, template)`: at 50 entries the
first ten keys (in insertion order) are deleted, then the pair is
stored (`Map.set`). -/
def setCachedCombination (templateKey template : String) (cc : CombinationCache) :
    CombinationCache :=
  let cc1 :=
    if cc.length ≥ 50 then
      cc.filter fun kv => !(((cc.map Prod.fst).take 10).contains kv.1)
    else cc
  if cc1.any fun kv => kv.1 == templateKey then
    cc1.map fun kv => if kv.1 = templateKey then (templateKey, template) else kv
  else
    cc1 ++ [(templateKey, template)]

/-- `generateOptimizedBashStatusline(config)`: look the full
configuration up in the combination cache; on a hit return the cached
script verbatim; otherwise build and cache the common-config template,
or return the empty string for non-common configurations
(`generateCustomTemplate` returns null). -/
def generateOptimizedBashStatusline (hash : String → String) (cfg : StatuslineConfig)
    (timestamp : String) (cc : CombinationCache) : String × CombinationCache :=
  let templateKey := generateTemplateKey hash cfg
  match getCachedCombination templateKey cc with
  | some cachedTemplate => (cachedTemplate, cc)
  | none =>
    match isCommonConfig cfg.features with
    | some commonConfig =>
        let optimizedTemplate := generateCommonConfigTemplate cfg commonConfig timestamp
        (optimizedTemplate, setCachedCombination templateKey optimizedTemplate cc)
    | none => ("", cc)

/-- `generateBashStatusline(config)` (the generator entry point): return
the template-cache result when it is non-empty; otherwise fall through
to the original per-feature assembly path, kept abstract here as
`fallback` (its own template-level memory cache, fragment generators and
`optimizeBashCode` run are outside this model). -/
def generateBashStatusline (hash : String → String)
    (fallback : StatuslineConfig → String → String) (cfg : StatuslineConfig)
    (timestamp : String) (cc : CombinationCache) : String × CombinationCache :=
  let r := generateOptimizedBashStatusline hash cfg timestamp cc
  if r.1 ≠ "" then r else (fallback cfg timestamp, r.2)

/-- The timestamp-independent tail of the common-config template:
everything after the creation timestamp. -/
def commonTemplateTail (cfg : StatuslineConfig) (commonConfig : List String) : String :=
  scriptHeaderSuffix cfg ++ "\n" ++
    String.intercalate "\n"
      ((commonConfigRestParts cfg commonConfig).filter fun p => p != "") ++ "\n"

end CCStatusline.TemplateCache

namespace CCStatusline

/-! ## Concrete configurations used by counterexamples and witnesses -/

/-- A minimal common-shape configuration: directory+model, no colors, no
logging, no ccusage. -/
def cfgDirModel : StatuslineConfig :=
  ⟨["directory", "model"], "bash", false, "minimal", false, false, false, none⟩

/-- The full common shape directory+git+model+usage+session with ccusage
integration enabled and the given style flags. -/
def fullCommonShapeConfig (colors : Bool) (theme : String) (customEmojis : Bool) :
    StatuslineConfig :=
  ⟨["directory", "git", "model", "usage", "session"], "bash", colors, theme,
    true, false, customEmojis, none⟩

/-- A tokens-only configuration with ccusage integration enabled. -/
def cfgTokensOnly : StatuslineConfig :=
  ⟨["tokens"], "bash", false, "minimal", true, false, false, none⟩

end CCStatusline

namespace CCStatusline

/-! ## Theorems for claims C3, C4, C7, C8 -/

/-- C3: if any of the optimizer's rewrite passes (compact variables,
builtin replacements, subshell reduction, pipe combining) throws, then
`optimizeBashCode` returns the pre-optimization input text exactly
unchanged, for every validator; the exception is never propagated (the
result is a plain `String`, not an `Except`). -/
theorem optimizeBashCode_rollback_on_exception {E : Type}
    (P : RewritePasses E) (validateOptimizations : String → String → ValidationResult)
    (opts : OptimizationOptions) (input : String) (e : E)
    (h : runRewritePasses P opts input = .error e) :
    optimizeBashCode P validateOptimizations opts input = input := by
  unfold optimizeBashCode
  rw [h]

/-- Witness for C3 at a concrete throwing pass and input. -/
theorem optimizeBashCode_rollback_on_exception_witness :
    runRewritePasses throwingPasses defaultOptions "a=$(date +%s)" = .error () ∧
      optimizeBashCode throwingPasses trivialValidator defaultOptions "a=$(date +%s)"
        = "a=$(date +%s)" :=
  ⟨rfl, optimizeBashCode_rollback_on_exception throwingPasses trivialValidator
    defaultOptions "a=$(date +%s)" () rfl⟩

/-- C4: if every rewrite pass completes without throwing, then
`optimizeBashCode` returns the fully rewritten text, and the validation
result never changes the returned text: the output is the same for every
validator (including ones reporting high-severity issues). -/
theorem optimizeBashCode_fail_open {E : Type}
    (P : RewritePasses E) (v v' : String → String → ValidationResult)
    (opts : OptimizationOptions) (input rewritten : String)
    (h : runRewritePasses P opts input = .ok rewritten) :
    optimizeBashCode P v opts input = rewritten ∧
      optimizeBashCode P v' opts input = optimizeBashCode P v opts input := by
  unfold optimizeBashCode
  rw [h]
  exact ⟨rfl, rfl⟩

/-- Witness for C4: with a throwing-free pass pipeline and a validator
reporting high-severity issues, the rewritten text is still returned. -/
theorem optimizeBashCode_fail_open_witness :
    runRewritePasses rewritingPasses defaultOptions "echo" = .ok "echoX" ∧
      optimizeBashCode rewritingPasses alwaysFailingValidator defaultOptions "echo" = "echoX" ∧
      (alwaysFailingValidator "echo" "echoX").severity = .high :=
  ⟨rfl,
    by
      have h := optimizeBashCode_fail_open rewritingPasses alwaysFailingValidator
        trivialValidator defaultOptions "echo" "echoX" rfl
      exact h.1,
    rfl⟩

/-- C7: for a configured cpu threshold `t` (the configuration admits
10 ≤ t ≤ 95), the emitted `cpu_clr` guards use exactly the constants `t`
(warning tier) and `round(1.1·t)` (critical tier) — no hard-coded default
appears — and the emitted function is yellow exactly on
`t < p ≤ round(1.1·t)` and red exactly on `round(1.1·t) < p`; for
`t = 75` the critical constant is `83` (in the spec's 82–83 range). -/
theorem emittedCpuThresholds_configured (th : SystemThresholds) (t p : Nat)
    (ht : th.cpuThreshold = t) (h10 : 10 ≤ t) (h95 : t ≤ 95) :
    emittedCpuThresholds (some th) = (t, (11 * t + 5) / 10) ∧
      (emittedCpuColorTier t ((11 * t + 5) / 10) p = .yellow ↔
        t < p ∧ p ≤ (11 * t + 5) / 10) ∧
      (emittedCpuColorTier t ((11 * t + 5) / 10) p = .red ↔
        (11 * t + 5) / 10 < p) ∧
      jsRoundElevenTenths 75 = 83 := by
  have htc : t ≤ (11 * t + 5) / 10 := by
    apply Nat.le_div_iff_mul_le (by norm_num) |>.mpr
    omega
  have hct : cpuThresholdUsed (some th) = t := by
    show (if th.cpuThreshold = 0 then 75 else th.cpuThreshold) = t
    rw [ht, if_neg (by omega)]
  refine ⟨?_, ?_, ?_, by norm_num [jsRoundElevenTenths]⟩
  · unfold emittedCpuThresholds jsRoundElevenTenths
    rw [hct]
  · unfold emittedCpuColorTier
    constructor
    · intro h
      by_cases hc : p > (11 * t + 5) / 10
      · simp [hc] at h
      · by_cases hw : p > t
        · constructor
          · exact hw
          · omega
        · simp [hc, hw] at h
    · intro ⟨h1, h2⟩
      have hc : ¬ p > (11 * t + 5) / 10 := by omega
      simp [hc, h1]
  · unfold emittedCpuColorTier
    constructor
    · intro h
      by_cases hc : p > (11 * t + 5) / 10
      · exact hc
      · by_cases hw : p > t
        · simp [hc, hw] at h
        · simp [hc, hw] at h
    · intro h
      simp [h]

/-- Witness for C7 at `t = 75`: the emitted constants are `(75, 83)`,
percent 84 is red, percent 76 is yellow. -/
theorem emittedCpuThresholds_configured_witness :
    emittedCpuThresholds (some ⟨75, 80⟩) = (75, 83) ∧
      emittedCpuColorTier 75 83 84 = .red ∧
      emittedCpuColorTier 75 83 76 = .yellow := by
  have h84 := emittedCpuThresholds_configured ⟨75, 80⟩ 75 84 rfl (by norm_num) (by norm_num)
  have h76 := emittedCpuThresholds_configured ⟨75, 80⟩ 75 76 rfl (by norm_num) (by norm_num)
  refine ⟨?_, ?_, ?_⟩
  · have := h84.1
    simpa using this
  · exact h84.2.2.1.mpr (by norm_num)
  · exact h76.2.1.mpr (by norm_num)

/-- C8: the emitted session percentage always lies in `[0, 100]`, and for
every percentage `p ≤ 100` and width `w` the emitted `progress_bar`
outputs exactly `w` characters: `p*w/100` copies of `=` followed by
`w - p*w/100` copies of `-`. -/
theorem sessionPct_bounds_and_progressBar :
    (∀ startSec endSec nowSec : Int,
      0 ≤ sessionPct startSec endSec nowSec ∧ sessionPct startSec endSec nowSec ≤ 100) ∧
    (∀ p w : Nat, p ≤ 100 →
      progressBar p w =
        String.mk (List.replicate (p * w / 100) '=') ++
          String.mk (List.replicate (w - p * w / 100) '-') ∧
      (progressBar p w).length = w) := by
  constructor
  · intro s e n
    unfold sessionPct
    set total0 := e - s with htotal0
    set total := if total0 < 1 then 1 else total0 with htotal
    set elapsed0 := n - s with helapsed0
    set elapsed1 := if elapsed0 < 0 then 0 else elapsed0 with helapsed1
    set elapsed := if elapsed1 > total then total else elapsed1 with helapsed
    have htpos : 1 ≤ total := by
      rw [htotal]; split <;> omega
    have he0 : 0 ≤ elapsed := by
      rw [helapsed, helapsed1]
      split
      · omega
      · split <;> omega
    have hle : elapsed ≤ total := by
      rw [helapsed]
      split
      · omega
      · omega
    constructor
    · exact Int.ediv_nonneg (by positivity) (by omega)
    · have h1 : elapsed * 100 ≤ total * 100 := by nlinarith
      calc elapsed * 100 / total ≤ total * 100 / total :=
            Int.ediv_le_ediv (by omega) h1
        _ = 100 := Int.mul_ediv_cancel_left 100 (by omega)
  · intro p w hp
    have hclamp : (if p > 100 then 100 else p) = p := by
      simp [Nat.not_lt.mpr hp]
    have hfill : p * w / 100 ≤ w := by
      have h1 : p * w ≤ 100 * w := Nat.mul_le_mul_right w hp
      have h2 : p * w / 100 ≤ 100 * w / 100 := Nat.div_le_div_right h1
      have h3 : 100 * w / 100 = w := by
        rw [Nat.mul_comm]
        exact Nat.mul_div_cancel w (by norm_num)
      omega
    constructor
    · unfold progressBar
      rw [hclamp]
    · unfold progressBar
      rw [hclamp]
      have hmk : ∀ (l : List Char), (String.mk l).length = l.length := fun _ => rfl
      rw [String.length_append, hmk, hmk, List.length_replicate, List.length_replicate]
      omega

/-- Witness for C8 at `p = 30`, `w = 10`: the bar is ten characters,
three filled. -/
theorem sessionPct_bounds_and_progressBar_witness :
    (30 : Nat) ≤ 100 ∧ (progressBar 30 10).length = 10 ∧
      progressBar 30 10 = "===" ++ "-------" := by
  refine ⟨by norm_num, (sessionPct_bounds_and_progressBar.2 30 10 (by norm_num)).2, ?_⟩
  have h := (sessionPct_bounds_and_progressBar.2 30 10 (by norm_num)).1
  rw [h]
  rfl

/-- C10: generating a script mutates the caller's configuration: after a
call to the generator entry point the `features` array holds exactly the
sorted permutation of the tags the caller supplied — it is sorted, it is
a permutation of the input, and its final contents depend only on the
multiset of tags supplied, not on their order. -/
theorem featuresAfterGenerate_sorted (fs : List String) :
    featuresAfterGenerate fs = jsSortStrings fs ∧
      List.Sorted (· ≤ ·) (featuresAfterGenerate fs) ∧
      (featuresAfterGenerate fs).Perm fs ∧
      (∀ gs : List String, fs.Perm gs →
        featuresAfterGenerate fs = featuresAfterGenerate gs) := by
  have hsorted : ∀ l : List String, List.Sorted (· ≤ ·) (jsSortStrings l) := fun l =>
    List.sorted_mergeSort' l
  have hidem : featuresAfterGenerate fs = jsSortStrings fs :=
    List.mergeSort_eq_self (hsorted fs)
  refine ⟨hidem, ?_, ?_, ?_⟩
  · rw [hidem]; exact hsorted fs
  · rw [hidem]
    exact List.mergeSort_perm fs _
  · intro gs hperm
    have hgs : featuresAfterGenerate gs = jsSortStrings gs :=
      List.mergeSort_eq_self (hsorted gs)
    rw [hidem, hgs]
    exact List.eq_of_perm_of_sorted
      ((List.mergeSort_perm fs _).trans (hperm.trans (List.mergeSort_perm gs _).symm))
      (hsorted fs) (hsorted gs)

/-- Witness for C10: two supply orders of the same tags leave the array
in the same (sorted) state. -/
theorem featuresAfterGenerate_sorted_witness :
    (["model", "directory"] : List String).Perm ["directory", "model"] ∧
      featuresAfterGenerate ["model", "directory"]
        = featuresAfterGenerate ["directory", "model"] :=
  ⟨by decide,
    (featuresAfterGenerate_sorted ["model", "directory"]).2.2.2
      ["directory", "model"] (by decide)⟩

/-- If some element of the list fails the (boolean) predicate, filtering
strictly shrinks the list. -/
theorem length_filter_lt_of_mem_not {α : Type} (p : α → Bool) (l : List α)
    (a : α) (ha : a ∈ l) (hpa : p a = false) :
    (l.filter p).length < l.length := by
  induction l with
  | nil => cases ha
  | cons x xs ih =>
    rcases List.mem_cons.mp ha with h | h
    · subst h
      rw [List.filter_cons_of_neg (by simp [hpa])]
      exact Nat.lt_succ_of_le (List.length_filter_le _ _)
    · by_cases hx : p x
      · rw [List.filter_cons_of_pos hx]
        simpa using Nat.succ_lt_succ (ih h)
      · rw [List.filter_cons_of_neg (by simpa using hx)]
        exact Nat.lt_succ_of_lt (ih h)

/-- Entries surviving `cleanupMemoryCache` are exactly the cache entries
whose key is not marked for deletion. -/
theorem mem_cleanupMemoryCache {now maxE : Nat} {cache : MemCache}
    {p : String × CacheEntry} :
    p ∈ cleanupMemoryCache now maxE cache ↔
      p ∈ cache ∧ p.1 ∉ cleanupToDelete now maxE cache := by
  unfold cleanupMemoryCache
  simp [List.mem_filter]

/-- An expired entry's key is always marked for deletion. -/
theorem expired_mem_cleanupToDelete {now maxE : Nat} {cache : MemCache}
    {p : String × CacheEntry} (hp : p ∈ cache) (hex : now > p.2.expiry) :
    p.1 ∈ cleanupToDelete now maxE cache := by
  have h0 : p.1 ∈ expiredKeys now cache := by
    unfold expiredKeys
    exact List.mem_map_of_mem Prod.fst
      (List.mem_filter.mpr ⟨hp, by simpa using hex⟩)
  unfold cleanupToDelete
  split
  · exact List.mem_append_left _ h0
  · exact h0

/-- When no entry is expired and the cache is at capacity, the deletion
marks are exactly the lowest-hit keys. -/
theorem cleanupToDelete_of_no_expired {now maxE : Nat} {cache : MemCache}
    (h : ∀ kv ∈ cache, now ≤ kv.2.expiry) (hge : cache.length ≥ maxE) :
    cleanupToDelete now maxE cache = lowHitKeys maxE cache := by
  have hek : expiredKeys now cache = [] := by
    unfold expiredKeys
    have hf : cache.filter (fun kv => decide (now > kv.2.expiry)) = [] := by
      rw [List.filter_eq_nil_iff]
      intro a ha
      simpa using Nat.not_lt.mpr (h a ha)
    rw [hf]
    rfl
  unfold cleanupToDelete
  rw [hek]
  simp [hge]

/-- C6: calling `setInMemory` on a cache at capacity first removes all
already-expired entries; if no entry was expired (so the removal left the
cache still at capacity), the `maxMemoryEntries / 5` entries with the
lowest hit counts are removed instead; the new entry is then present, and
the cache never exceeds its capacity. -/
theorem setInMemory_at_capacity_eviction (now : Nat) (cfg : CacheConfig)
    (key value typ context : String) (cache : MemCache)
    (hcap : cache.length = cfg.maxMemoryEntries)
    (hmax : 5 ≤ cfg.maxMemoryEntries) :
    (∀ kv ∈ cache, now > kv.2.expiry → kv.1 ≠ key →
      ∀ e : CacheEntry, (kv.1, e) ∉ setInMemory now cfg key value typ context cache) ∧
    ((∀ kv ∈ cache, now ≤ kv.2.expiry) →
      ∀ kv ∈ (cache.mergeSort fun a b => Nat.ble a.2.hits b.2.hits).take
          (cfg.maxMemoryEntries / 5),
        kv.1 ≠ key →
        ∀ e : CacheEntry, (kv.1, e) ∉ setInMemory now cfg key value typ context cache) ∧
    ((key, (⟨typ, context, now, value, now + ttlForType cfg typ, 0⟩ : CacheEntry)) ∈
      setInMemory now cfg key value typ context cache) ∧
    (setInMemory now cfg key value typ context cache).length ≤ cfg.maxMemoryEntries := by
  have hge : cache.length ≥ cfg.maxMemoryEntries := le_of_eq hcap.symm
  set entry : CacheEntry := ⟨typ, context, now, value, now + ttlForType cfg typ, 0⟩ with hentry
  set cleaned := cleanupMemoryCache now cfg.maxMemoryEntries cache with hcleaned
  have hset : setInMemory now cfg key value typ context cache =
      if cleaned.any fun kv => kv.1 == key then
        cleaned.map fun kv => if kv.1 = key then (key, entry) else kv
      else cleaned ++ [(key, entry)] := by
    unfold setInMemory
    rw [if_pos hge]
  -- a marked key never appears in the result unless it is the new key
  have hgone : ∀ k : String, k ∈ cleanupToDelete now cfg.maxMemoryEntries cache →
      k ≠ key → ∀ e : CacheEntry,
      (k, e) ∉ setInMemory now cfg key value typ context cache := by
    intro k hk hkey e hmem
    rw [hset] at hmem
    by_cases hany : cleaned.any fun kv => kv.1 == key
    · rw [if_pos hany] at hmem
      rcases List.mem_map.mp hmem with ⟨p, hpmem, hpeq⟩
      by_cases hpk : p.1 = key
      · rw [if_pos hpk] at hpeq
        exact hkey (by simpa using congrArg Prod.fst hpeq.symm)
      · rw [if_neg hpk] at hpeq
        have := (mem_cleanupMemoryCache.mp (hcleaned ▸ hpmem)).2
        rw [hpeq] at this
        exact this hk
    · rw [if_neg hany] at hmem
      rcases List.mem_append.mp hmem with h | h
      · exact (mem_cleanupMemoryCache.mp (hcleaned ▸ h)).2 hk
      · have := List.mem_singleton.mp h
        exact hkey (by simpa using congrArg Prod.fst this)
  have hlt : cleaned.length < cache.length := by
    by_cases hex : ∃ kv ∈ cache, now > kv.2.expiry
    · rcases hex with ⟨kv, hkvmem, hkvex⟩
      rw [hcleaned]
      unfold cleanupMemoryCache
      apply length_filter_lt_of_mem_not _ _ kv hkvmem
      simp only [Bool.not_eq_false', decide_eq_true_eq]
      exact expired_mem_cleanupToDelete hkvmem hkvex
    · push_neg at hex
      have hnone : ∀ kv ∈ cache, now ≤ kv.2.expiry := hex
      have htd : cleanupToDelete now cfg.maxMemoryEntries cache
          = lowHitKeys cfg.maxMemoryEntries cache :=
        cleanupToDelete_of_no_expired hnone hge
      have htake : (cache.mergeSort fun a b => Nat.ble a.2.hits b.2.hits).take
          (cfg.maxMemoryEntries / 5) ≠ [] := by
        have hdivpos : 1 ≤ cfg.maxMemoryEntries / 5 :=
          (Nat.le_div_iff_mul_le (by norm_num)).mpr (by omega)
        have hlen : ((cache.mergeSort fun a b => Nat.ble a.2.hits b.2.hits).take
            (cfg.maxMemoryEntries / 5)).length =
            min (cfg.maxMemoryEntries / 5) cache.length := by
          rw [List.length_take, List.length_mergeSort]
        intro hnil
        rw [hnil] at hlen
        simp at hlen
        omega
      rcases List.exists_mem_of_ne_nil _ htake with ⟨x, hx⟩
      have hxcache : x ∈ cache :=
        (List.mergeSort_perm cache _).mem_iff.mp (List.mem_of_mem_take hx)
      rw [hcleaned]
      unfold cleanupMemoryCache
      apply length_filter_lt_of_mem_not _ _ x hxcache
      simp only [Bool.not_eq_false', decide_eq_true_eq]
      rw [htd]
      exact List.mem_map_of_mem Prod.fst hx
  refine ⟨?_, ?_, ?_, ?_⟩
  · intro kv hkv hex hkey e
    exact hgone kv.1 (expired_mem_cleanupToDelete hkv hex) hkey e
  · intro hnone kv hkv hkey e
    have htd := cleanupToDelete_of_no_expired hnone hge
    apply hgone kv.1 _ hkey e
    rw [htd]
    exact List.mem_map_of_mem Prod.fst hkv
  · rw [hset]
    by_cases hany : cleaned.any fun kv => kv.1 == key
    · rw [if_pos hany]
      rcases List.any_eq_true.mp hany with ⟨p, hpmem, hpkey⟩
      have hpk : p.1 = key := by simpa using hpkey
      exact List.mem_map.mpr ⟨p, hpmem, by simp [hpk]⟩
    · rw [if_neg hany]
      exact List.mem_append_right _ (List.mem_singleton.mpr rfl)
  · rw [hset]
    by_cases hany : cleaned.any fun kv => kv.1 == key
    · rw [if_pos hany, List.length_map]
      omega
    · rw [if_neg hany, List.length_append]
      simp only [List.length_singleton]
      omega

/-- Witness for C6: a five-entry cache at capacity five; the expired
entry `k1` is evicted by the insertion of `k6`. -/
theorem setInMemory_at_capacity_eviction_witness :
    (("k1", (⟨"template", "c", 0, "v1", 50, 0⟩ : CacheEntry)) ∈
        ([("k1", ⟨"template", "c", 0, "v1", 50, 0⟩),
          ("k2", ⟨"template", "c", 0, "v2", 500, 1⟩),
          ("k3", ⟨"template", "c", 0, "v3", 500, 4⟩),
          ("k4", ⟨"template", "c", 0, "v4", 500, 1⟩),
          ("k5", ⟨"template", "c", 0, "v5", 500, 5⟩)] : MemCache)) ∧
      ∀ e : CacheEntry, ("k1", e) ∉
        setInMemory 100 ⟨5000, 30, 5, 300000, 60000⟩ "k6" "v6" "template" "c"
          [("k1", ⟨"template", "c", 0, "v1", 50, 0⟩),
           ("k2", ⟨"template", "c", 0, "v2", 500, 1⟩),
           ("k3", ⟨"template", "c", 0, "v3", 500, 4⟩),
           ("k4", ⟨"template", "c", 0, "v4", 500, 1⟩),
           ("k5", ⟨"template", "c", 0, "v5", 500, 5⟩)] :=
  ⟨by decide,
    (setInMemory_at_capacity_eviction 100 ⟨5000, 30, 5, 300000, 60000⟩
      "k6" "v6" "template" "c" _ (by decide) (by decide)).1
      ("k1", ⟨"template", "c", 0, "v1", 50, 0⟩) (by decide) (by decide) (by decide)⟩

/-- C2 counterexample: for a configuration selecting only `tokens` (one
of the four usage-family tags, with ccusage integration on), the display
loop appends the usage display block zero times — the block is absent,
refuting "exactly once whenever any of usage/session/tokens/burnrate is
selected". -/
theorem usage_block_missing_for_tokens_only :
    cfgTokensOnly.features = ["tokens"] ∧
      usageDisplayAppendCount cfgTokensOnly.features = 0 ∧
      ¬ usageDisplayAppendCount cfgTokensOnly.features = 1 := by
  refine ⟨rfl, by decide, by decide⟩

/-- C2 (amended): the display loop appends the combined usage display
block exactly once if `usage` or `session` is selected, and not at all
otherwise — in particular it is never duplicated when several of the
four usage-family tags are selected together, but it is absent when only
`tokens` and/or `burnrate` are selected.  (The appended block's text can
still be empty when `ccusageIntegration` is off, since
`generateUsageDisplayCode` returns the empty string for a disabled
usage feature.) -/
theorem usage_block_count_characterization (features : List String) :
    usageDisplayAppendCount features =
      (if features.contains "usage" || features.contains "session" then 1 else 0) := by
  by_cases hcu : "usage" ∈ features <;> by_cases hcs : "session" ∈ features <;>
    simp [usageDisplayAppendCount, displayAppends, featurePriority, displayDispatch,
      hcu, hcs, List.count_append, apply_ite (List.count DisplayBlock.usageBlock),
      List.count_cons, List.count_nil]

set_option maxRecDepth 40000 in
/-- C5 counterexample: for the common shape
directory+git+model+usage+session (colors on, detailed theme, ccusage
on), the per-feature fallback path's usage display block renders the
session countdown (it tests and prints `session_txt`), while the
common-config template path's display section never references
`session_txt` at all — the two paths do not produce the same display
blocks, refuting behavioural equivalence. -/
theorem common_path_omits_session_display :
    containsSeq "# session time"
        (generateUsageDisplayCode (usageConfigOf (fullCommonShapeConfig true "detailed" false))
          true true) = true ∧
      containsSeq "$session_txt"
        (generateUsageDisplayCode (usageConfigOf (fullCommonShapeConfig true "detailed" false))
          true true) = true ∧
      containsSeq "# session time"
        (TemplateCache.generateDisplaySection (fullCommonShapeConfig true "detailed" false))
        = false ∧
      containsSeq "session_txt"
        (TemplateCache.generateDisplaySection (fullCommonShapeConfig true "detailed" false))
        = false := by
  refine ⟨by decide, by decide, by decide, by decide⟩

set_option maxRecDepth 40000 in
/-- C5 (amended): the common-config template path is a behaviour change,
not a pure performance shortcut: for every styling of the common shape
directory+git+model+usage+session, the fallback path's display stage
contains the session-countdown block while the common-config path's
display section does not contain it. -/
theorem common_path_not_equivalent (colors customEmojis : Bool) (theme : String)
    (htheme : theme = "minimal" ∨ theme = "detailed" ∨ theme = "compact") :
    containsSeq "# session time"
        (generateUsageDisplayCode (usageConfigOf (fullCommonShapeConfig colors theme customEmojis))
          colors (colors && !customEmojis)) = true ∧
      containsSeq "# session time"
        (TemplateCache.generateDisplaySection (fullCommonShapeConfig colors theme customEmojis))
        = false := by
  rcases htheme with h | h | h <;> subst h <;> cases colors <;> cases customEmojis <;>
    exact ⟨by decide, by decide⟩

/-- Witness for the amended C5 at a concrete styling. -/
theorem common_path_not_equivalent_witness :
    (("detailed" : String) = "minimal" ∨ ("detailed" : String) = "detailed" ∨
        ("detailed" : String) = "compact") ∧
      containsSeq "# session time"
        (generateUsageDisplayCode (usageConfigOf (fullCommonShapeConfig true "detailed" false))
          true (true && !false)) = true :=
  ⟨Or.inr (Or.inl rfl),
    (common_path_not_equivalent true false "detailed" (Or.inr (Or.inl rfl))).1⟩

/-! ## String plumbing for the determinism analysis (C1) -/

/-- Appending strings appends their character data. -/
theorem stringDataAppend (a b : String) : (a ++ b).data = a.data ++ b.data := by
  cases a
  cases b
  rfl

/-- Strings with equal character data are equal. -/
theorem stringEqOfData {a b : String} (h : a.data = b.data) : a = b := by
  cases a
  cases b
  exact congrArg String.mk h

/-- String append is associative. -/
theorem strAppend_assoc (a b c : String) : a ++ b ++ c = a ++ (b ++ c) := by
  apply stringEqOfData
  simp [stringDataAppend, List.append_assoc]

/-- An append whose left part is non-empty is non-empty. -/
theorem strAppend_ne_empty_left (a b : String) (ha : a ≠ "") : a ++ b ≠ "" := by
  intro h
  apply ha
  have hd := congrArg String.data h
  rw [stringDataAppend] at hd
  have hnil : a.data = [] := (List.append_eq_nil.mp hd).1
  exact stringEqOfData hnil

/-- Unfolding `String.intercalate.go` over a cons cell. -/
theorem intercalate_go_spec (s : String) : ∀ (l : List String) (acc b : String),
    String.intercalate.go acc s (b :: l) = acc ++ s ++ String.intercalate.go b s l := by
  intro l
  induction l with
  | nil => intro acc b; rfl
  | cons c cs ih =>
    intro acc b
    have hL : String.intercalate.go acc s (b :: c :: cs)
        = String.intercalate.go (acc ++ s ++ b) s (c :: cs) := rfl
    rw [hL, ih (acc ++ s ++ b) c, ih b c]
    simp [strAppend_assoc]

/-- `String.intercalate` over a cons with a non-empty tail. -/
theorem intercalate_cons_of_ne_nil (s a : String) (l : List String) (h : l ≠ []) :
    String.intercalate s (a :: l) = a ++ s ++ String.intercalate s l := by
  cases l with
  | nil => cases h rfl
  | cons b bs => exact intercalate_go_spec s bs a b

/-- Cancelling a common prefix and a common same-length middle slot. -/
theorem affine_slot_inj (A B ts₁ ts₂ : String) (hlen : ts₁.length = ts₂.length)
    (h : A ++ (ts₁ ++ B) = A ++ (ts₂ ++ B)) : ts₁ = ts₂ := by
  have hd := congrArg String.data h
  rw [stringDataAppend, stringDataAppend, stringDataAppend, stringDataAppend] at hd
  have h1 : ts₁.data ++ B.data = ts₂.data ++ B.data := (List.append_inj hd rfl).2
  have hlen' : ts₁.data.length = ts₂.data.length := hlen
  exact stringEqOfData (List.append_inj_left h1 hlen')

/-- Looking up a key right after a JavaScript `Map.set` of that key
(replace-in-place when present, append otherwise) finds the new value. -/
theorem lookup_map_replace (k t : String) :
    ∀ l : List (String × String), (l.any fun kv => kv.1 == k) = true →
      (l.map fun kv => if kv.1 = k then (k, t) else kv).lookup k = some t := by
  intro l
  induction l with
  | nil => intro h; simp at h
  | cons x xs ih =>
    intro hany
    obtain ⟨a, b⟩ := x
    rw [List.map_cons]
    by_cases hx : a = k
    · subst hx
      simp [List.lookup_cons]
    · have hany' : (xs.any fun kv => kv.1 == k) = true := by
        simp only [List.any_cons, Bool.or_eq_true] at hany
        rcases hany with h | h
        · exact absurd (by simpa using h) hx
        · exact h
      have hka : (k == a) = false := by
        simp [beq_eq_false_iff_ne, Ne.symm hx]
      have hmap : (if (a, b).1 = k then (k, t) else (a, b)) = (a, b) := if_neg hx
      rw [hmap, List.lookup_cons, hka]
      exact ih hany'

/-- Looking up a freshly appended key when it was absent before. -/
theorem lookup_append_of_not_any (k t : String) :
    ∀ l : List (String × String), (l.any fun kv => kv.1 == k) = false →
      (l ++ [(k, t)]).lookup k = some t := by
  intro l
  induction l with
  | nil => simp [List.lookup_cons]
  | cons x xs ih =>
    intro hany
    obtain ⟨a, b⟩ := x
    simp only [List.any_cons, Bool.or_eq_false_iff] at hany
    have hka : (k == a) = false := by
      have : ¬ a = k := by simpa [beq_eq_false_iff_ne] using hany.1
      simp [beq_eq_false_iff_ne, Ne.symm this]
    rw [List.cons_append, List.lookup_cons, hka]
    exact ih hany.2

/-- Looking up the key just stored with `setCachedCombination` returns
the stored (non-empty) template verbatim (the FIFO eviction at 50
entries never evicts the key being stored). -/
theorem lookup_setCachedCombination (k t : String) (cc : TemplateCache.CombinationCache)
    (ht : t ≠ "") :
    TemplateCache.getCachedCombination k (TemplateCache.setCachedCombination k t cc)
      = some t := by
  unfold TemplateCache.getCachedCombination TemplateCache.setCachedCombination
  set cc1 := if cc.length ≥ 50 then
      cc.filter fun kv => !(((cc.map Prod.fst).take 10).contains kv.1)
    else cc with hcc1
  have hlk : (if (cc1.any fun kv => kv.1 == k) = true then
        cc1.map fun kv => if kv.1 = k then (k, t) else kv
      else cc1 ++ [(k, t)]).lookup k = some t := by
    by_cases hany : (cc1.any fun kv => kv.1 == k) = true
    · rw [if_pos hany]
      exact lookup_map_replace k t cc1 hany
    · rw [if_neg hany]
      have hf : (cc1.any fun kv => kv.1 == k) = false := by
        cases h : cc1.any fun kv => kv.1 == k
        · rfl
        · exact absurd h hany
      exact lookup_append_of_not_any k t cc1 hf
  rw [hlk]
  show (if t = "" then none else some t) = some t
  rw [if_neg ht]

/-- The generated script header is never the empty string. -/
theorem generateScriptHeader_ne_empty (cfg : StatuslineConfig) (ts : String) :
    TemplateCache.generateScriptHeader cfg ts ≠ "" := by
  unfold TemplateCache.generateScriptHeader
  apply strAppend_ne_empty_left
  apply strAppend_ne_empty_left
  decide

/-- The common-config display section is never the empty string. -/
theorem tcDisplaySection_ne_empty (cfg : StatuslineConfig) :
    TemplateCache.generateDisplaySection cfg ≠ "" := by
  unfold TemplateCache.generateDisplaySection
  apply strAppend_ne_empty_left
  apply strAppend_ne_empty_left
  apply strAppend_ne_empty_left
  apply strAppend_ne_empty_left
  decide

/-- The common-config template splits as a fixed prefix, the creation
timestamp, and a timestamp-independent tail. -/
theorem generateCommonConfigTemplate_affine (cfg : StatuslineConfig)
    (commonConfig : List String) (ts : String) :
    TemplateCache.generateCommonConfigTemplate cfg commonConfig ts =
      TemplateCache.scriptHeaderPrefix ++ (ts ++ TemplateCache.commonTemplateTail cfg commonConfig) := by
  unfold TemplateCache.generateCommonConfigTemplate TemplateCache.commonTemplateTail
  have hhead : ((TemplateCache.generateScriptHeader cfg ts) != "") = true := by
    simpa [bne_iff_ne] using generateScriptHeader_ne_empty cfg ts
  have hfc : List.filter (fun p => p != "")
      (TemplateCache.generateScriptHeader cfg ts ::
        TemplateCache.commonConfigRestParts cfg commonConfig)
      = TemplateCache.generateScriptHeader cfg ts ::
        List.filter (fun p => p != "") (TemplateCache.commonConfigRestParts cfg commonConfig) :=
    List.filter_cons_of_pos hhead
  rw [hfc]
  have hne : (TemplateCache.commonConfigRestParts cfg commonConfig).filter
      (fun p => p != "") ≠ [] := by
    have hmem : TemplateCache.generateDisplaySection cfg ∈
        TemplateCache.commonConfigRestParts cfg commonConfig := by
      unfold TemplateCache.commonConfigRestParts
      simp
    have hkeep : ((TemplateCache.generateDisplaySection cfg) != "") = true := by
      simpa [bne_iff_ne] using tcDisplaySection_ne_empty cfg
    intro hnil
    have hmemf : TemplateCache.generateDisplaySection cfg ∈
        (TemplateCache.commonConfigRestParts cfg commonConfig).filter (fun p => p != "") :=
      List.mem_filter.mpr ⟨hmem, hkeep⟩
    rw [hnil] at hmemf
    cases hmemf
  rw [intercalate_cons_of_ne_nil _ _ _ hne]
  unfold TemplateCache.generateScriptHeader
  simp [strAppend_assoc]

/-- The common-config template is never the empty string (so the entry
point returns it rather than falling back). -/
theorem generateCommonConfigTemplate_ne_empty (cfg : StatuslineConfig)
    (commonConfig : List String) (ts : String) :
    TemplateCache.generateCommonConfigTemplate cfg commonConfig ts ≠ "" := by
  rw [generateCommonConfigTemplate_affine]
  apply strAppend_ne_empty_left
  decide

/-- A cold call (combination cache missing the key) on a common-shape
configuration returns the common-config template and caches it. -/
theorem generateBashStatusline_cold_of_common
    (hash : String → String) (fallback : StatuslineConfig → String → String)
    (cfg : StatuslineConfig) (shape : List String) (cc : TemplateCache.CombinationCache)
    (ts : String)
    (hcommon : TemplateCache.isCommonConfig cfg.features = some shape)
    (hmiss : TemplateCache.getCachedCombination
      (TemplateCache.generateTemplateKey hash cfg) cc = none) :
    TemplateCache.generateBashStatusline hash fallback cfg ts cc
      = (TemplateCache.generateCommonConfigTemplate cfg shape ts,
         TemplateCache.setCachedCombination (TemplateCache.generateTemplateKey hash cfg)
           (TemplateCache.generateCommonConfigTemplate cfg shape ts) cc) := by
  have hopt : TemplateCache.generateOptimizedBashStatusline hash cfg ts cc
      = (TemplateCache.generateCommonConfigTemplate cfg shape ts,
         TemplateCache.setCachedCombination (TemplateCache.generateTemplateKey hash cfg)
           (TemplateCache.generateCommonConfigTemplate cfg shape ts) cc) := by
    unfold TemplateCache.generateOptimizedBashStatusline
    simp only [hmiss, hcommon]
  unfold TemplateCache.generateBashStatusline
  simp only [hopt]
  rw [if_pos (generateCommonConfigTemplate_ne_empty cfg shape ts)]

/-- C1 (amended): for every configuration matching a common shape, (a) a
cold call (combination cache missing the key) returns exactly the
common-config template for its creation timestamp; (b) warm cache: a
second call with the same configuration returns the first call's script
and cache state verbatim — byte-identical — even if it observes a
different timestamp; (c) the generated text is the deterministic
function `headerPrefix ++ timestamp ++ tail(config)` of the
configuration and the timestamp; hence (d) two cold generations are
byte-identical exactly when they observe the same creation timestamp.
(For non-common configurations the fallback path additionally involves
its own 5-second-TTL memory cache and the text optimizer, outside this
model.) -/
theorem generator_warm_identity_and_timestamp_affine
    (hash : String → String) (fallback : StatuslineConfig → String → String)
    (cfg : StatuslineConfig) (shape : List String) (cc : TemplateCache.CombinationCache)
    (ts₁ ts₂ : String)
    (hcommon : TemplateCache.isCommonConfig cfg.features = some shape)
    (hmiss : TemplateCache.getCachedCombination
      (TemplateCache.generateTemplateKey hash cfg) cc = none) :
    (TemplateCache.generateBashStatusline hash fallback cfg ts₁ cc).1
        = TemplateCache.generateCommonConfigTemplate cfg shape ts₁ ∧
      TemplateCache.generateBashStatusline hash fallback cfg ts₂
          (TemplateCache.generateBashStatusline hash fallback cfg ts₁ cc).2
        = TemplateCache.generateBashStatusline hash fallback cfg ts₁ cc ∧
      (∀ ts, TemplateCache.generateCommonConfigTemplate cfg shape ts
          = TemplateCache.scriptHeaderPrefix ++
              (ts ++ TemplateCache.commonTemplateTail cfg shape)) ∧
      (ts₁.length = ts₂.length →
        (TemplateCache.generateCommonConfigTemplate cfg shape ts₁
            = TemplateCache.generateCommonConfigTemplate cfg shape ts₂ ↔ ts₁ = ts₂)) := by
  have hne1 := generateCommonConfigTemplate_ne_empty cfg shape ts₁
  have hgen1 : TemplateCache.generateBashStatusline hash fallback cfg ts₁ cc
      = (TemplateCache.generateCommonConfigTemplate cfg shape ts₁,
         TemplateCache.setCachedCombination (TemplateCache.generateTemplateKey hash cfg)
           (TemplateCache.generateCommonConfigTemplate cfg shape ts₁) cc) :=
    generateBashStatusline_cold_of_common hash fallback cfg shape cc ts₁ hcommon hmiss
  have hlook : TemplateCache.getCachedCombination (TemplateCache.generateTemplateKey hash cfg)
      (TemplateCache.setCachedCombination (TemplateCache.generateTemplateKey hash cfg)
        (TemplateCache.generateCommonConfigTemplate cfg shape ts₁) cc)
      = some (TemplateCache.generateCommonConfigTemplate cfg shape ts₁) :=
    lookup_setCachedCombination _ _ cc hne1
  have hopt2 : TemplateCache.generateOptimizedBashStatusline hash cfg ts₂
      (TemplateCache.setCachedCombination (TemplateCache.generateTemplateKey hash cfg)
        (TemplateCache.generateCommonConfigTemplate cfg shape ts₁) cc)
      = (TemplateCache.generateCommonConfigTemplate cfg shape ts₁,
         TemplateCache.setCachedCombination (TemplateCache.generateTemplateKey hash cfg)
           (TemplateCache.generateCommonConfigTemplate cfg shape ts₁) cc) := by
    unfold TemplateCache.generateOptimizedBashStatusline
    simp only [hlook]
  refine ⟨by rw [hgen1], ?_, fun ts => generateCommonConfigTemplate_affine cfg shape ts, ?_⟩
  · rw [hgen1]
    unfold TemplateCache.generateBashStatusline
    simp only [hopt2]
    rw [if_pos hne1]
  · intro hlen
    constructor
    · intro heq
      rw [generateCommonConfigTemplate_affine, generateCommonConfigTemplate_affine] at heq
      exact affine_slot_inj _ _ _ _ hlen heq
    · intro heq
      rw [heq]

/-- The directory+model feature list is recognised as the first common
shape (its own sorted list compares equal to itself, so no sort needs to
be evaluated). -/
theorem isCommonConfig_dirModel :
    TemplateCache.isCommonConfig cfgDirModel.features = some ["directory", "model"] := by
  unfold TemplateCache.isCommonConfig TemplateCache.COMMON_CONFIGS cfgDirModel
  rw [List.find?_cons_of_pos]
  exact beq_self_eq_true _

/-- C1 counterexample: two cold-cache generations of the same
directory+model configuration at different creation timestamps are not
byte-identical — the header's `Created:` line differs. -/
theorem cold_regeneration_not_byte_identical :
    TemplateCache.isCommonConfig cfgDirModel.features = some ["directory", "model"] ∧
      TemplateCache.generateCommonConfigTemplate cfgDirModel ["directory", "model"]
          "2025-01-01T00:00:00.000Z"
        ≠ TemplateCache.generateCommonConfigTemplate cfgDirModel ["directory", "model"]
          "2025-01-02T00:00:00.000Z" ∧
      (TemplateCache.generateBashStatusline (fun s => s) (fun _ _ => "") cfgDirModel
          "2025-01-01T00:00:00.000Z" []).1
        ≠ (TemplateCache.generateBashStatusline (fun s => s) (fun _ _ => "") cfgDirModel
          "2025-01-02T00:00:00.000Z" []).1 := by
  have hts : TemplateCache.generateCommonConfigTemplate cfgDirModel ["directory", "model"]
        "2025-01-01T00:00:00.000Z"
      ≠ TemplateCache.generateCommonConfigTemplate cfgDirModel ["directory", "model"]
        "2025-01-02T00:00:00.000Z" := by
    intro h
    have hlen : ("2025-01-01T00:00:00.000Z" : String).length
        = ("2025-01-02T00:00:00.000Z" : String).length := rfl
    have heq := (affine_slot_inj _ _ _ _ hlen
      (by
        rw [← generateCommonConfigTemplate_affine, ← generateCommonConfigTemplate_affine]
        exact h))
    exact absurd heq (by decide)
  refine ⟨isCommonConfig_dirModel, hts, ?_⟩
  rw [generateBashStatusline_cold_of_common (fun s => s) (fun _ _ => "") cfgDirModel
      ["directory", "model"] [] "2025-01-01T00:00:00.000Z" isCommonConfig_dirModel rfl,
    generateBashStatusline_cold_of_common (fun s => s) (fun _ _ => "") cfgDirModel
      ["directory", "model"] [] "2025-01-02T00:00:00.000Z" isCommonConfig_dirModel rfl]
  exact hts

/-- Witness for the amended C1 at a concrete configuration, hash and
fresh cache: the warm second call returns the first call's result. -/
theorem generator_warm_identity_witness :
    TemplateCache.generateBashStatusline (fun s => s) (fun _ _ => "") cfgDirModel
        "2025-01-02T00:00:00.000Z"
        (TemplateCache.generateBashStatusline (fun s => s) (fun _ _ => "") cfgDirModel
          "2025-01-01T00:00:00.000Z" []).2
      = TemplateCache.generateBashStatusline (fun s => s) (fun _ _ => "") cfgDirModel
          "2025-01-01T00:00:00.000Z" [] :=
  (generator_warm_identity_and_timestamp_affine (fun s => s) (fun _ _ => "") cfgDirModel
    ["directory", "model"] [] "2025-01-01T00:00:00.000Z" "2025-01-02T00:00:00.000Z"
    isCommonConfig_dirModel rfl).2.1

end CCStatusline
